import Mathlib

/-!
Verification of the Fwog repository: a dynamic Base-chain trading plugin
(token catalog, volatility estimator, token analyzer, trade executor) and an
AutoClient lifecycle wrapper.

JavaScript numbers are modelled as exact rationals extended with the IEEE
special values +Infinity, -Infinity and NaN (`JSNum`); floating-point rounding
is idealised away, which is faithful for every comparison and arithmetic fact
the claims depend on.  `Math.sqrt` lands outside the rationals, so the result
of `calculateVolatility` lives in `JSR`, the same extension of the reals.
-/

namespace Fwog

/-- A JavaScript number: a finite value (exact rational) or one of the IEEE
special values.  The negatively signed zero is identified with zero, which is
observationally equal for every operation the source performs. -/
inductive JSNum where
  | num (q : ℚ)
  | posInf
  | negInf
  | nan
deriving DecidableEq, Repr

/-- JS addition (`+` on numbers): NaN propagates, opposite infinities give NaN. -/
def jsAdd : JSNum → JSNum → JSNum
  | .nan, _ => .nan
  | _, .nan => .nan
  | .num a, .num b => .num (a + b)
  | .posInf, .negInf => .nan
  | .negInf, .posInf => .nan
  | .posInf, _ => .posInf
  | _, .posInf => .posInf
  | .negInf, _ => .negInf
  | _, .negInf => .negInf

/-- JS subtraction. -/
def jsSub : JSNum → JSNum → JSNum
  | .nan, _ => .nan
  | _, .nan => .nan
  | .num a, .num b => .num (a - b)
  | .posInf, .posInf => .nan
  | .negInf, .negInf => .nan
  | .posInf, _ => .posInf
  | .negInf, _ => .negInf
  | .num _, .posInf => .negInf
  | .num _, .negInf => .posInf

/-- JS division.  Division of a nonzero finite value by zero yields a signed
infinity; `0 / 0` yields NaN. -/
def jsDiv : JSNum → JSNum → JSNum
  | .nan, _ => .nan
  | _, .nan => .nan
  | .num a, .num b =>
      if b = 0 then (if a = 0 then .nan else if 0 < a then .posInf else .negInf)
      else .num (a / b)
  | .posInf, .num b => if b < 0 then .negInf else .posInf
  | .negInf, .num b => if b < 0 then .posInf else .negInf
  | .num _, .posInf => .num 0
  | .num _, .negInf => .num 0
  | .posInf, .posInf => .nan
  | .posInf, .negInf => .nan
  | .negInf, .posInf => .nan
  | .negInf, .negInf => .nan

/-- JS `Math.pow(x, 2)`, as used in the variance accumulation. -/
def jsPow2 : JSNum → JSNum
  | .num a => .num (a ^ 2)
  | .nan => .nan
  | _ => .posInf

/-- JS `<` on numbers: any comparison involving NaN is false. -/
def jsLt : JSNum → JSNum → Bool
  | .num a, .num b => decide (a < b)
  | .num _, .posInf => true
  | .negInf, .num _ => true
  | .negInf, .posInf => true
  | _, _ => false

/-- JS `>` on numbers. -/
def jsGt (a b : JSNum) : Bool := jsLt b a

/-- JS non-strict comparison on numbers: any comparison involving NaN is false. -/
def jsLe : JSNum → JSNum → Bool
  | .nan, _ => false
  | _, .nan => false
  | .num a, .num b => decide (a ≤ b)
  | .num _, .posInf => true
  | .num _, .negInf => false
  | .posInf, .posInf => true
  | .posInf, _ => false
  | .negInf, _ => true

/-- JS non-strict reverse comparison on numbers. -/
def jsGe (a b : JSNum) : Bool := jsLe b a

/-- JS truthiness of a number: `0` and NaN are falsy, everything else truthy. -/
def truthy : JSNum → Bool
  | .num q => decide (q ≠ 0)
  | .nan => false
  | _ => true

/-- The JS `a || b` operator restricted to numbers. -/
def jsOr (a b : JSNum) : JSNum := if truthy a then a else b

/-- A possibly-absent JSON field used in arithmetic: `undefined` coerces to NaN. -/
def numOrNaN (o : Option JSNum) : JSNum := o.getD .nan

/-- The source idiom `field || 0`: an absent or falsy field is coerced to 0. -/
def orZero : Option JSNum → JSNum
  | none => .num 0
  | some v => jsOr v (.num 0)

/-! ## VolatilityEstimator (`calculateVolatility`, part_000 lines 53 to 71) -/

/-- The daily-returns loop (lines 57 to 61): for each adjacent pair the value
`(p[i] - p[i-1]) / p[i-1]`, under JS arithmetic (a zero previous price yields
an infinity or NaN). -/
def dailyReturns : List ℚ → List JSNum
  | p0 :: p1 :: rest => jsDiv (.num (p1 - p0)) (.num p0) :: dailyReturns (p1 :: rest)
  | _ => []

/-- `returns.reduce((sum, value) => sum + value, 0)` (line 64). -/
def sumJS (rs : List JSNum) : JSNum := rs.foldl jsAdd (.num 0)

/-- Mean of the returns (line 64): the reduce above divided by the length. -/
def meanOf (rs : List JSNum) : JSNum := jsDiv (sumJS rs) (.num (rs.length : ℚ))

/-- The variance accumulation (line 67):
`returns.reduce((sum, value) => sum + Math.pow(value - mean, 2), 0)`. -/
def varSum (rs : List JSNum) (m : JSNum) : JSNum :=
  rs.foldl (fun s v => jsAdd s (jsPow2 (jsSub v m))) (.num 0)

/-- Variance of the daily returns of a price list (lines 57 to 67). -/
def varianceOf (ps : List ℚ) : JSNum :=
  let rs := dailyReturns ps
  jsDiv (varSum rs (meanOf rs)) (.num (rs.length : ℚ))

/-- A JS number whose finite payload is a real, the codomain of `Math.sqrt`. -/
inductive JSR where
  | num (x : ℝ)
  | posInf
  | negInf
  | nan

/-- JS `Math.sqrt` on a finite-or-special argument: negative arguments and NaN
give NaN, +Infinity gives +Infinity. -/
noncomputable def jsSqrtR : JSNum → JSR
  | .num q => if q < 0 then .nan else .num (Real.sqrt (q : ℝ))
  | .posInf => .posInf
  | .negInf => .nan
  | .nan => .nan

/-- `calculateVolatility` (lines 53 to 71): 0 for fewer than two prices,
otherwise the square root of the variance of the daily returns. -/
noncomputable def calculateVolatility (ps : List ℚ) : JSR :=
  if ps.length < 2 then .num 0 else jsSqrtR (varianceOf ps)

/-! Reference formulation of the population statistics, written from the
specification's words (section 4.2): the simple returns, their mean, and the
mean of squared deviations from the mean. -/

/-- Simple returns `(p[i] - p[i-1]) / p[i-1]` as exact rationals. -/
def simpleReturns : List ℚ → List ℚ
  | p0 :: p1 :: rest => (p1 - p0) / p0 :: simpleReturns (p1 :: rest)
  | _ => []

/-- Mean of a rational list (0 for the empty list, by rational convention). -/
def popMean (rs : List ℚ) : ℚ := rs.sum / (rs.length : ℚ)

/-- Population variance: mean of squared deviations from the mean. -/
def popVariance (rs : List ℚ) : ℚ :=
  ((rs.map (fun r => (r - popMean rs) ^ 2)).sum) / (rs.length : ℚ)

/-! ## TokenCatalog (`fetchTokensOnBase`, part_000 lines 4 to 51) -/

/-- A token record `{symbol, address, decimals, name}`. -/
structure Token where
  symbol : String
  address : String
  decimals : ℚ
  name : String
deriving DecidableEq, Repr

/-- A raw entry of the remote token registry, before the field projection of
lines 15 to 20. -/
structure RawToken where
  symbol : String
  address : String
  decimals : ℚ
  name : String
deriving DecidableEq, Repr

/-- The observable outcome of the registry retrieval.  `netError` a rejected
fetch, `notOk` a non-2xx response, `badPayload` a body that fails to parse as
JSON or parses to a non-array (on which `.map` throws); all three throw inside
the `try` block.  `payload` a parsed array. -/
inductive RegistryResponse where
  | netError
  | notOk
  | badPayload
  | payload (ts : List RawToken)

/-- The hardcoded fallback token list of lines 24 to 49. -/
def fallbackTokens : List Token :=
  [ { symbol := "USDC", address := "0x833589fCD6eDb6E08f4c7C32D4f71b54bdA02913",
      decimals := 6, name := "USD Coin" },
    { symbol := "WETH", address := "0x4200000000000000000000000000000000000006",
      decimals := 18, name := "Wrapped Ether" },
    { symbol := "BTC", address := "0x236aa50979D5f3De3Bd1Eeb40E81137F22ab794b",
      decimals := 8, name := "Bitcoin" },
    { symbol := "SOL", address := "0x1C6aE197fF4BF7BA96726FB6633cc0A8B0d169C8",
      decimals := 9, name := "Solana" } ]

/-- `fetchTokensOnBase`: every failure path is absorbed by the `catch` and
yields the fallback list; a parsed array is mapped through the projection of
lines 15 to 20.  The function is total: no outcome raises to the caller. -/
def fetchTokensOnBase : RegistryResponse → List Token
  | .payload ts =>
      ts.map (fun t =>
        { symbol := t.symbol, address := t.address,
          decimals := t.decimals, name := t.name })
  | _ => fallbackTokens

/-! ## TokenAnalyzer (`analyzeTokens` with `getTokenMetrics`, lines 73 to 126) -/

/-- The metrics record built at lines 83 to 90.  The `volatility` field holds
the JS double produced by `Math.sqrt`; since every claim about the analyzer
holds for every value of that field, the analyzer definitions below take the
volatility computation as an explicit function argument `volOf` standing for
`calculateVolatility`. -/
structure TokenMetrics where
  price : JSNum
  volume24h : JSNum
  priceChange24h : JSNum
  liquidityUSD : JSNum
  volatility : JSNum
  volumeToLiquidity : JSNum
deriving DecidableEq, Repr

/-- The parsed JSON body of the per-token metrics response.  Fields are absent
(`none`, JS `undefined`) or numeric; `historicalPrices` is a list of finite
JSON numbers. -/
structure RawMetrics where
  price : Option JSNum
  volume24h : Option JSNum
  priceChange24h : Option JSNum
  liquidityUSD : Option JSNum
  historicalPrices : Option (List ℚ)
deriving DecidableEq, Repr

/-- The record construction of `getTokenMetrics` (lines 83 to 90): each plain
field is coerced with `|| 0`, while `volumeToLiquidity` divides the two RAW
fields first and only then applies `|| 0` to the quotient. -/
def getTokenMetrics (volOf : List ℚ → JSNum) (raw : RawMetrics) : TokenMetrics :=
  { price := orZero raw.price,
    volume24h := orZero raw.volume24h,
    priceChange24h := orZero raw.priceChange24h,
    liquidityUSD := orZero raw.liquidityUSD,
    volatility := volOf (raw.historicalPrices.getD []),
    volumeToLiquidity :=
      jsOr (jsDiv (numOrNaN raw.volume24h) (numOrNaN raw.liquidityUSD)) (.num 0) }

/-- The risk classification labels. -/
inductive RiskProfile where
  | high
  | standard
deriving DecidableEq, Repr

/-- An output record of the analyzer: the token joined with its risk profile
and metrics (the source spreads the token fields; here they are nested). -/
structure AnalyzedToken where
  token : Token
  riskProfile : RiskProfile
  metrics : TokenMetrics
deriving DecidableEq, Repr

/-- The per-token classification of lines 102 to 121. -/
def analyzeToken (t : Token) (m : TokenMetrics) : Option AnalyzedToken :=
  let isHighVolatility := jsGt m.volatility (.num 0.1)
  let isHighTurnover := jsGt m.volumeToLiquidity (.num 0.5)
  let isProfitable :=
    if isHighVolatility && isHighTurnover then
      jsGe m.liquidityUSD (.num 25000) && jsGe m.volume24h (.num 15000) &&
        jsLt m.priceChange24h (.num (-3))
    else
      jsGe m.liquidityUSD (.num 100000) && jsGe m.volume24h (.num 50000) &&
        jsLt m.priceChange24h (.num 0)
  if isProfitable then
    some { token := t,
           riskProfile := if isHighVolatility then .high else .standard,
           metrics := m }
  else none

/-- Holds when a metrics fetch succeeded (the `try` of `getTokenMetrics` did
not reach its `catch`). -/
def fetchOk : Except String RawMetrics → Bool
  | .ok _ => true
  | .error _ => false

/-- `analyzeTokens` (lines 97 to 125): map every token through its metrics
fetch (`fetch` is the network oracle; an exception is caught and becomes
`null`, here `none`) and classification, then filter out the nulls.  The call
itself never fails. -/
def analyzeTokens (volOf : List ℚ → JSNum) (fetch : Token → Except String RawMetrics)
    (tokens : List Token) : List AnalyzedToken :=
  (tokens.map (fun t =>
    match fetch t with
    | .error _ => none
    | .ok raw => analyzeToken t (getTokenMetrics volOf raw))).reduceOption

/-- Classification written from the specification's words (section 4.3):
select the relaxed policy exactly when both the volatility and the turnover
threshold hold, otherwise the standard policy; exclude tokens failing their
applicable policy; tag survivors high exactly when the volatility threshold
holds. -/
def specClassification (m : TokenMetrics) : Option RiskProfile :=
  let isHighVolatility := jsGt m.volatility (.num 0.1)
  let isHighTurnover := jsGt m.volumeToLiquidity (.num 0.5)
  let passes :=
    if isHighVolatility && isHighTurnover then
      jsGe m.liquidityUSD (.num 25000) && jsGe m.volume24h (.num 15000) &&
        jsLt m.priceChange24h (.num (-3))
    else
      jsGe m.liquidityUSD (.num 100000) && jsGe m.volume24h (.num 50000) &&
        jsLt m.priceChange24h (.num 0)
  if passes then some (if isHighVolatility then .high else .standard) else none

/-! ## TradeExecutor (`executeTrade`, lines 128 to 176) -/

/-- A structured trade result `{success, hash, amount, token}` (lines 166
to 171). -/
structure TradeResult where
  success : Bool
  hash : String
  amount : ℚ
  token : String
deriving DecidableEq, Repr

/-- The environment of one `executeTrade` call: the outcome of each awaited
external step, in source order.  `swap` receives the computed minimum output
and the recipient address; the path and deadline arguments do not influence
any claim and are elided. -/
structure TradeEnv where
  getContract : Except String Unit
  quote : Except String ℚ
  getAddress : Except String String
  swap : ℤ → String → Except String Unit
  wait : Except String String

/-- The fixed slippage tolerance of line 152. -/
def slippageTolerance : ℚ := 0.005

/-- Line 153: `Math.floor(quote.expectedOutput * (1 - slippageTolerance))`. -/
def minimumAmountOut (expectedOutput : ℚ) : ℤ :=
  ⌊expectedOutput * (1 - slippageTolerance)⌋

/-- The body of the `try` block of `executeTrade` (lines 130 to 171): run the
steps in order, stopping at the first failure with its raw error. -/
def runTradeSteps (env : TradeEnv) (t : Token) (amount : ℚ) :
    Except String TradeResult :=
  match env.getContract with
  | .error e => .error e
  | .ok _ =>
    match env.quote with
    | .error e => .error e
    | .ok expectedOutput =>
      let minOut := minimumAmountOut expectedOutput
      match env.getAddress with
      | .error e => .error e
      | .ok addr =>
        match env.swap minOut addr with
        | .error e => .error e
        | .ok _ =>
          match env.wait with
          | .error e => .error e
          | .ok hash =>
            .ok { success := true, hash := hash, amount := amount, token := t.symbol }

/-- `executeTrade` (lines 128 to 176): the catch of lines 172 to 175 logs and
re-raises every step failure as
`new Error("Failed to execute trade: " + error.message)`. -/
def executeTrade (env : TradeEnv) (t : Token) (amount : ℚ) :
    Except String TradeResult :=
  match runTradeSteps env t amount with
  | .ok r => .ok r
  | .error e => .error ("Failed to execute trade: " ++ e)

/-! ## LifecycleWrapper (`AutoClient`, packages/client-auto/src/index.ts)

The wrapper drives an externally supplied plugin.  `PluginBehavior` records
the outcome of each awaited external call: `create` for
`createRabbiTraderPlugin`, `init` for `plugin.initialize(runtime)`, `start`
for `plugin.start()`, `onStart` for the optional `plugin.onStart()` hook, and
`cleanup` for the optional `plugin.cleanup()` hook. -/

structure PluginBehavior where
  create : Except String Unit
  init : Except String Unit
  start : Except String Unit
  onStart : Option (Except String Unit)
  cleanup : Option (Except String Unit)

/-- The external plugin calls the wrapper can issue, in issue order. -/
inductive LifeEvent where
  | createCalled
  | initCalled
  | startCalled
  | onStartCalled
deriving DecidableEq, Repr

/-- `initializePlugin` (index.ts lines 27 to 56): create, initialize, start,
optional onStart, each awaited in order; the first failure aborts the sequence
and is re-raised by the catch (lines 48 to 55).  The second component records
which plugin calls were issued. -/
def initializePlugin (p : PluginBehavior) : Except String Unit × List LifeEvent :=
  match p.create with
  | .error e => (.error e, [.createCalled])
  | .ok _ =>
    match p.init with
    | .error e => (.error e, [.createCalled, .initCalled])
    | .ok _ =>
      match p.start with
      | .error e => (.error e, [.createCalled, .initCalled, .startCalled])
      | .ok _ =>
        match p.onStart with
        | none => (.ok (), [.createCalled, .initCalled, .startCalled])
        | some (.error e) =>
            (.error e, [.createCalled, .initCalled, .startCalled, .onStartCalled])
        | some (.ok _) =>
            (.ok (), [.createCalled, .initCalled, .startCalled, .onStartCalled])

/-- The observable outcome of `new AutoClient(runtime)`.  The constructor
(lines 10 to 14) invokes the async `initialize()` WITHOUT awaiting it: an
async function never throws synchronously, so the constructor always returns
normally and the promise of `initialize()` is left floating, its rejection
reaching no caller.  `pendingInit` is that floating promise's eventual
outcome together with the plugin calls it issued (`initialize`, lines 16 to
25, awaits `initializePlugin` and re-raises its error into the same floating
promise). -/
structure ConstructedClient where
  returnedNormally : Bool
  pendingInit : Except String Unit × List LifeEvent

/-- `new AutoClient(runtime)`: always returns a client. -/
def autoClientConstructor (p : PluginBehavior) : ConstructedClient :=
  { returnedNormally := true, pendingInit := initializePlugin p }

/-- `AutoClientInterface.start` (lines 79 to 83): construct the client and
return it; nothing awaits or inspects the floating initialization promise, so
the interface call resolves successfully for every plugin behavior. -/
def autoClientInterfaceStart (p : PluginBehavior) : Except String ConstructedClient :=
  .ok (autoClientConstructor p)

/-- The slice of `AutoClient` state that `stop()` reads: whether an interval
is scheduled and whether the plugin field was ever assigned (with the
cleanup hook behavior of an assigned plugin). -/
structure AutoClientState where
  interval : Bool
  plugin : Option PluginBehavior

/-- `stop()` (lines 58 to 75): clear the interval if set (`clearInterval`
cannot fail), then await `plugin?.cleanup` if the plugin exists and has the
hook; the catch re-raises a cleanup failure.  Returns the updated state and
the call's outcome. -/
def AutoClient.stop (st : AutoClientState) : AutoClientState × Except String Unit :=
  let st' : AutoClientState := { st with interval := false }
  match st.plugin with
  | none => (st', .ok ())
  | some p =>
    match p.cleanup with
    | none => (st', .ok ())
    | some (.ok _) => (st', .ok ())
    | some (.error e) => (st', .error e)

/-! ## Concrete fixtures used by counterexamples and witnesses -/

/-- A volatility computation standing in for `Math.sqrt` that returns 0. -/
def volZero : List ℚ → JSNum := fun _ => .num 0

/-- Parsed metrics with `liquidityUSD = 0` and a positive `volume24h`. -/
def rawZeroLiqPosVol : RawMetrics :=
  { price := none, volume24h := some (.num 1000), priceChange24h := none,
    liquidityUSD := some (.num 0), historicalPrices := none }

/-- Parsed metrics with `liquidityUSD = 0` and a negative `volume24h`. -/
def rawZeroLiqNegVol : RawMetrics :=
  { price := none, volume24h := some (.num (-5)), priceChange24h := none,
    liquidityUSD := some (.num 0), historicalPrices := none }

/-- A metrics payload that parsed but carries none of the numeric fields. -/
def rawAllNone : RawMetrics :=
  { price := none, volume24h := none, priceChange24h := none,
    liquidityUSD := none, historicalPrices := none }

/-- A sample token. -/
def tok0 : Token :=
  { symbol := "TOK", address := "0x0000000000000000000000000000000000000000",
    decimals := 18, name := "Token" }

/-- Plugin behavior whose `initialize` call rejects. -/
def pluginInitFails : PluginBehavior :=
  { create := .ok (), init := .error "init failed", start := .ok (),
    onStart := none, cleanup := none }

/-- A trade environment whose quote fetch rejects with message `boom`. -/
def envQuoteFail : TradeEnv :=
  { getContract := .ok (), quote := .error "boom", getAddress := .ok "0xdead",
    swap := fun _ _ => .ok (), wait := .ok "0xhash" }

/-- A token with symbol `ABC`. -/
def tokenABC : Token :=
  { symbol := "ABC", address := "0xabc", decimals := 18, name := "Token ABC" }

/-- A token with symbol `XYZ`. -/
def tokenXYZ : Token :=
  { symbol := "XYZ", address := "0xxyz", decimals := 18, name := "Token XYZ" }

/-! ## Claims -/

/-- C6: `fetchTokensOnBase` never raises (it is a total function of the
response: the only `throw` sits inside the `try`), and on every failure
outcome (network error, non-success status, malformed or non-array payload)
it returns exactly the fixed 4-token fallback list with symbols USDC, WETH,
BTC, SOL and their literal addresses and decimals. -/
theorem fetchTokensOnBase_fallback :
    fetchTokensOnBase .netError = fallbackTokens ∧
    fetchTokensOnBase .notOk = fallbackTokens ∧
    fetchTokensOnBase .badPayload = fallbackTokens ∧
    fallbackTokens.map (fun t => t.symbol) = ["USDC", "WETH", "BTC", "SOL"] ∧
    fallbackTokens.map (fun t => (t.address, t.decimals)) =
      [("0x833589fCD6eDb6E08f4c7C32D4f71b54bdA02913", 6),
       ("0x4200000000000000000000000000000000000006", 18),
       ("0x236aa50979D5f3De3Bd1Eeb40E81137F22ab794b", 8),
       ("0x1C6aE197fF4BF7BA96726FB6633cc0A8B0d169C8", 9)] :=
  ⟨rfl, rfl, rfl, rfl, rfl⟩

/-- C8: `executeTrade` computes the minimum output as
`floor(expectedOutput * (1 - 0.005))` with the fixed 0.5 percent slippage
constant, and at `expectedOutput = 1000` the result is 995.  Arithmetic is
modelled exactly over the rationals; at this input the double-precision
computation of the source rounds `1000 * (1 - 0.005)` to exactly 995 as well,
so the two agree. -/
theorem minimumAmountOut_spec :
    slippageTolerance = 5 / 1000 ∧
    (∀ e : ℚ, minimumAmountOut e = ⌊e * (1 - slippageTolerance)⌋) ∧
    minimumAmountOut 1000 = 995 :=
  ⟨by norm_num [slippageTolerance], fun _ => rfl,
   by norm_num [minimumAmountOut, slippageTolerance]⟩

/-- C9: calling `stop()` before any successful start, with the plugin field
never assigned and no interval scheduled, returns successfully: the interval
branch and the optional-chained cleanup call are both skipped, and nothing in
the `try` block can throw. -/
theorem stop_before_start_does_not_raise (st : AutoClientState)
    (h1 : st.plugin = none) (h2 : st.interval = false) :
    (AutoClient.stop st).2 = .ok () := by
  simp [AutoClient.stop, h1]

/-- Witness for C9 at the freshly constructed state. -/
theorem stop_before_start_does_not_raise_witness :
    (AutoClient.stop { interval := false, plugin := none }).2 = .ok () :=
  stop_before_start_does_not_raise { interval := false, plugin := none } rfl rfl

/-- C2 (the failing input evaluated): when the plugin's `initialize` rejects,
the lifecycle sequence aborts before `start` is ever invoked — but the failure
is NOT surfaced to the instantiating caller: the constructor fires
`this.initialize()` without awaiting it, so `new AutoClient(runtime)` returns
normally and `AutoClientInterface.start` resolves with the client, the
rejection surviving only inside the floating promise. -/
theorem autoClient_init_failure_not_surfaced :
    (initializePlugin pluginInitFails).1 = .error "init failed" ∧
    LifeEvent.startCalled ∉ (initializePlugin pluginInitFails).2 ∧
    (autoClientConstructor pluginInitFails).returnedNormally = true ∧
    autoClientInterfaceStart pluginInitFails = .ok (autoClientConstructor pluginInitFails) :=
  ⟨rfl, by decide, rfl, rfl⟩

/-- C1 (counterexample): with fetched `liquidityUSD = 0` and `volume24h =
1000`, the stored `volumeToLiquidity` is +Infinity, not the fallback 0: the
`|| 0` applies to the quotient, and `1000 / 0` is the truthy value Infinity. -/
theorem volumeToLiquidity_zero_liquidity_not_zero :
    (getTokenMetrics volZero rawZeroLiqPosVol).volumeToLiquidity = JSNum.posInf ∧
    JSNum.posInf ≠ JSNum.num 0 := by
  exact ⟨by decide, by decide⟩

/-- C1 (as amended): when the fetched `liquidityUSD` is 0, the stored
`volumeToLiquidity` is the fallback 0 exactly when the raw quotient is falsy —
`volume24h` absent, NaN or 0, each of which makes `volume24h / 0` NaN; a
positive `volume24h` stores +Infinity and a negative one stores -Infinity. -/
theorem volumeToLiquidity_zero_liquidity_spec (volOf : List ℚ → JSNum)
    (raw : RawMetrics) (hl : raw.liquidityUSD = some (JSNum.num 0)) :
    ((raw.volume24h = none ∨ raw.volume24h = some JSNum.nan ∨
        raw.volume24h = some (JSNum.num 0)) →
      (getTokenMetrics volOf raw).volumeToLiquidity = JSNum.num 0) ∧
    (∀ v : ℚ, 0 < v → raw.volume24h = some (JSNum.num v) →
      (getTokenMetrics volOf raw).volumeToLiquidity = JSNum.posInf) ∧
    (∀ v : ℚ, v < 0 → raw.volume24h = some (JSNum.num v) →
      (getTokenMetrics volOf raw).volumeToLiquidity = JSNum.negInf) := by
  refine ⟨?_, ?_, ?_⟩
  · rintro (h | h | h) <;>
      simp [getTokenMetrics, hl, h, numOrNaN, jsDiv, jsOr, truthy]
  · intro v hv h
    simp [getTokenMetrics, hl, h, numOrNaN, jsDiv, jsOr, truthy, hv, hv.ne']
  · intro v hv h
    simp [getTokenMetrics, hl, h, numOrNaN, jsDiv, jsOr, truthy, hv.ne,
      not_lt.mpr hv.le]

/-- Witness for the amended C1 at a negative fetched volume. -/
theorem volumeToLiquidity_zero_liquidity_spec_witness :
    (getTokenMetrics volZero rawZeroLiqNegVol).volumeToLiquidity = JSNum.negInf :=
  (volumeToLiquidity_zero_liquidity_spec volZero rawZeroLiqNegVol rfl).2.2
    (-5) (by norm_num) rfl

/-- C5: the per-token classification of `analyzeTokens` coincides, for every
token and every metrics record, with the classification stated by the
specification: the relaxed policy (liquidity at least 25000, volume at least
15000, price change below -3) applies exactly when volatility exceeds 0.10
and turnover exceeds 0.50, otherwise the standard policy (liquidity at least
100000, volume at least 50000, negative price change) applies; failing tokens
are excluded and surviving tokens are tagged high exactly when volatility
exceeds 0.10. -/
theorem analyzeToken_matches_spec_classification (t : Token) (m : TokenMetrics) :
    analyzeToken t m =
      (specClassification m).map
        (fun rp => { token := t, riskProfile := rp, metrics := m }) := by
  simp only [analyzeToken, specClassification]
  split <;> simp

/-- A metrics field that is absent or falsy (so that `field || 0` yields 0). -/
def falsyOpt : Option JSNum → Bool
  | none => true
  | some v => !truthy v

/-- An absent-or-falsy field is coerced to 0 by the `|| 0` idiom. -/
theorem orZero_of_falsy {o : Option JSNum} (h : falsyOpt o = true) :
    orZero o = .num 0 := by
  match o with
  | none => rfl
  | some v =>
    simp only [falsyOpt, Bool.not_eq_true'] at h
    simp [orZero, jsOr, h]

/-- C10: a token whose metrics payload parses but whose numeric fields are all
absent or falsy has every one of them coerced to 0, and is always excluded
from the analyzer output — whatever its volatility and turnover — because the
coerced `priceChange24h = 0` satisfies neither `priceChange24h < -3` nor
`priceChange24h < 0`. -/
theorem falsy_metrics_token_excluded (volOf : List ℚ → JSNum) (t : Token)
    (raw : RawMetrics) (hp : falsyOpt raw.price = true)
    (hv : falsyOpt raw.volume24h = true) (hc : falsyOpt raw.priceChange24h = true)
    (hl : falsyOpt raw.liquidityUSD = true) :
    (getTokenMetrics volOf raw).price = JSNum.num 0 ∧
    (getTokenMetrics volOf raw).volume24h = JSNum.num 0 ∧
    (getTokenMetrics volOf raw).priceChange24h = JSNum.num 0 ∧
    (getTokenMetrics volOf raw).liquidityUSD = JSNum.num 0 ∧
    analyzeToken t (getTokenMetrics volOf raw) = none := by
  have h3 : (getTokenMetrics volOf raw).priceChange24h = JSNum.num 0 :=
    orZero_of_falsy hc
  refine ⟨orZero_of_falsy hp, orZero_of_falsy hv, h3, orZero_of_falsy hl, ?_⟩
  have e1 : jsLt (JSNum.num 0) (JSNum.num (-3)) = false := by decide
  have e2 : jsLt (JSNum.num 0) (JSNum.num 0) = false := by decide
  simp [analyzeToken, h3, e1, e2]

/-- Witness for C10 on a payload with every field absent. -/
theorem falsy_metrics_token_excluded_witness :
    (getTokenMetrics volZero rawAllNone).price = JSNum.num 0 ∧
    (getTokenMetrics volZero rawAllNone).volume24h = JSNum.num 0 ∧
    (getTokenMetrics volZero rawAllNone).priceChange24h = JSNum.num 0 ∧
    (getTokenMetrics volZero rawAllNone).liquidityUSD = JSNum.num 0 ∧
    analyzeToken tok0 (getTokenMetrics volZero rawAllNone) = none :=
  falsy_metrics_token_excluded volZero tok0 rawAllNone rfl rfl rfl rfl

/-- The error branch of the trade steps does not depend on the token or the
amount: the token is only read in the final success record. -/
theorem runTradeSteps_error_indep (env : TradeEnv) (t t' : Token)
    (amount amount' : ℚ) (c : String) (h : runTradeSteps env t amount = .error c) :
    runTradeSteps env t' amount' = .error c := by
  unfold runTradeSteps at h ⊢
  cases hgc : env.getContract with
  | error e1 => simp only [hgc] at h ⊢; exact h
  | ok u =>
    simp only [hgc] at h ⊢
    cases hq : env.quote with
    | error e2 => simp only [hq] at h ⊢; exact h
    | ok eo =>
      simp only [hq] at h ⊢
      cases hga : env.getAddress with
      | error e3 => simp only [hga] at h ⊢; exact h
      | ok addr =>
        simp only [hga] at h ⊢
        cases hs : env.swap (minimumAmountOut eo) addr with
        | error e4 => simp only [hs] at h ⊢; exact h
        | ok v =>
          simp only [hs] at h ⊢
          cases hw : env.wait with
          | error e5 => simp only [hw] at h ⊢; exact h
          | ok hash => simp only [hw] at h; cases h

/-- C3 (counterexample): when the quote fetch fails with message `boom`, the
raised error is exactly `Failed to execute trade: boom` for EVERY token — the
same for symbols ABC and XYZ — so the raised error identifies the underlying
cause but cannot identify the token symbol (the symbol reaches only the log,
not the thrown error, whose text does not contain it). -/
theorem executeTrade_error_omits_symbol :
    executeTrade envQuoteFail tokenABC 1 = .error "Failed to execute trade: boom" ∧
    executeTrade envQuoteFail tokenXYZ 1 = .error "Failed to execute trade: boom" ∧
    tokenABC.symbol ≠ tokenXYZ.symbol ∧
    ¬ ("ABC".toList <:+: "Failed to execute trade: boom".toList) :=
  ⟨rfl, rfl, by decide, by decide⟩

/-- C3 (as amended): every failure in the steps of `executeTrade` (quote
fetch, contract invocation, wallet address retrieval, receipt wait) is caught
and re-raised as the single wrapped error
`Failed to execute trade: <underlying message>` — never the raw low-level
error — and the raised error is identical for every token, hence names the
underlying cause but not the token symbol. -/
theorem executeTrade_error_wrapped (env : TradeEnv) (t t' : Token)
    (amount : ℚ) (e : String) (h : executeTrade env t amount = .error e) :
    (∃ c, runTradeSteps env t amount = .error c ∧
      e = "Failed to execute trade: " ++ c) ∧
    executeTrade env t' amount = .error e := by
  unfold executeTrade at h
  cases hr : runTradeSteps env t amount with
  | ok r => rw [hr] at h; cases h
  | error c =>
    rw [hr] at h
    have he : e = "Failed to execute trade: " ++ c := (Except.error.inj h).symm
    refine ⟨⟨c, rfl, he⟩, ?_⟩
    unfold executeTrade
    rw [runTradeSteps_error_indep env t t' amount amount c hr, he]

/-- Witness for the amended C3 on the quote-failure environment. -/
theorem executeTrade_error_wrapped_witness :
    "Failed to execute trade: boom" = "Failed to execute trade: " ++ "boom" ∧
    executeTrade envQuoteFail tokenXYZ 1 = .error "Failed to execute trade: boom" :=
  ⟨rfl, (executeTrade_error_wrapped envQuoteFail tokenABC tokenXYZ 1
    "Failed to execute trade: boom" rfl).2⟩

/-- A produced analyzer record carries the token it was produced from. -/
theorem analyzeToken_token {t : Token} {m : TokenMetrics} {a : AnalyzedToken}
    (h : analyzeToken t m = some a) : a.token = t := by
  simp only [analyzeToken] at h
  split at h <;> split at h
  all_goals first
    | exact Option.noConfusion h
    | (have h2 := Option.some.inj h; subst h2; rfl)

/-- Dropping the tokens whose metrics fetch fails leaves the analyzer output
unchanged: each token contributes independently and a failed fetch contributes
`null`, which the final filter removes. -/
theorem analyzeTokens_filter_ok (volOf : List ℚ → JSNum)
    (fetch : Token → Except String RawMetrics) (tokens : List Token) :
    analyzeTokens volOf fetch tokens =
      analyzeTokens volOf fetch (tokens.filter (fun u => fetchOk (fetch u))) := by
  induction tokens with
  | nil => rfl
  | cons u ts ih =>
    cases hf : fetch u with
    | error e' =>
      simp only [analyzeTokens, List.map_cons, hf, List.filter_cons, fetchOk,
        List.reduceOption_cons_of_none, if_neg, Bool.false_eq_true,
        not_false_eq_true] at ih ⊢
      exact ih
    | ok raw =>
      simp only [analyzeTokens, List.map_cons, hf, List.filter_cons, fetchOk,
        if_pos] at ih ⊢
      cases ha : analyzeToken u (getTokenMetrics volOf raw) with
      | none =>
        simp only [List.reduceOption_cons_of_none]
        exact ih
      | some a =>
        simp only [List.reduceOption_cons_of_some]
        exact congrArg (a :: ·) ih

/-- C7: a token whose metrics fetch fails is absent from the analyzer output,
and its failure does not disturb the call: the output over the full list
equals the output over the sublist of tokens whose fetch succeeds (which are
analyzed normally), and no output record mentions the failed token. -/
theorem analyzeTokens_drops_failed_fetch (volOf : List ℚ → JSNum)
    (fetch : Token → Except String RawMetrics) (tokens : List Token)
    (t : Token) (e : String) (h : fetch t = .error e) :
    analyzeTokens volOf fetch tokens =
      analyzeTokens volOf fetch (tokens.filter (fun u => fetchOk (fetch u))) ∧
    ∀ a ∈ analyzeTokens volOf fetch tokens, a.token ≠ t := by
  refine ⟨analyzeTokens_filter_ok volOf fetch tokens, ?_⟩
  intro a ha heq
  rw [analyzeTokens] at ha
  rw [List.reduceOption_mem_iff, List.mem_map] at ha
  obtain ⟨u, hu, hfu⟩ := ha
  cases hf : fetch u with
  | error e' => rw [hf] at hfu; cases hfu
  | ok raw =>
    rw [hf] at hfu
    have : a.token = u := analyzeToken_token hfu
    rw [heq] at this
    rw [← this] at hf
    rw [h] at hf
    cases hf

/-- Metrics fetch oracle failing exactly on the token with symbol `AAA`. -/
def fetchAB : Token → Except String RawMetrics := fun t =>
  if t.symbol = "AAA" then .error "down" else .ok rawAllNone

/-- A token with symbol `AAA` (its metrics fetch fails under `fetchAB`). -/
def tokA : Token := { symbol := "AAA", address := "0xaaa", decimals := 18, name := "A" }

/-- A token with symbol `BBB` (its metrics fetch succeeds under `fetchAB`). -/
def tokB : Token := { symbol := "BBB", address := "0xbbb", decimals := 18, name := "B" }

/-- Witness for C7 on a two-token list whose first fetch fails. -/
theorem analyzeTokens_drops_failed_fetch_witness :
    fetchAB tokA = .error "down" ∧
    analyzeTokens volZero fetchAB [tokA, tokB] =
      analyzeTokens volZero fetchAB
        ([tokA, tokB].filter (fun u => fetchOk (fetchAB u))) :=
  ⟨rfl,
   (analyzeTokens_drops_failed_fetch volZero fetchAB [tokA, tokB] tokA "down"
     rfl).1⟩

/-- When no price except possibly the last is zero, the JS daily-returns loop
produces exactly the rational simple returns. -/
theorem dailyReturns_map : ∀ ps : List ℚ, (∀ p ∈ ps.dropLast, p ≠ 0) →
    dailyReturns ps = (simpleReturns ps).map JSNum.num
  | [] => fun _ => rfl
  | [_] => fun _ => rfl
  | p0 :: p1 :: rest => fun h => by
      have h0 : p0 ≠ 0 :=
        h p0 (by rw [List.dropLast_cons₂]; exact List.mem_cons_self _ _)
      have hrest : ∀ p ∈ (p1 :: rest).dropLast, p ≠ 0 := fun p hp =>
        h p (by rw [List.dropLast_cons₂]; exact List.mem_cons_of_mem _ hp)
      simp only [dailyReturns, simpleReturns, List.map_cons]
      refine congrArg₂ List.cons ?_ (dailyReturns_map (p1 :: rest) hrest)
      simp [jsDiv, h0]

/-- The sum reduce over finite returns computes the rational sum. -/
theorem foldl_jsAdd_map (l : List ℚ) : ∀ a : ℚ,
    (l.map JSNum.num).foldl jsAdd (.num a) = .num (a + l.sum) := by
  induction l with
  | nil => intro a; simp
  | cons x xs ih =>
    intro a
    simp only [List.map_cons, List.foldl_cons, List.sum_cons]
    rw [show jsAdd (.num a) (.num x) = .num (a + x) from rfl, ih]
    exact congrArg JSNum.num (by ring)

/-- The squared-deviation reduce over finite returns computes the rational
sum of squared deviations. -/
theorem foldl_varSum_map (m : ℚ) (l : List ℚ) : ∀ a : ℚ,
    (l.map JSNum.num).foldl (fun s v => jsAdd s (jsPow2 (jsSub v (.num m)))) (.num a) =
      .num (a + (l.map (fun r => (r - m) ^ 2)).sum) := by
  induction l with
  | nil => intro a; simp
  | cons x xs ih =>
    intro a
    simp only [List.map_cons, List.foldl_cons, List.sum_cons]
    rw [show jsAdd (.num a) (jsPow2 (jsSub (.num x) (.num m))) = .num (a + (x - m) ^ 2)
          from rfl, ih]
    exact congrArg JSNum.num (by ring)

/-- There is one simple return fewer than there are prices. -/
theorem simpleReturns_length : ∀ ps : List ℚ, (simpleReturns ps).length = ps.length - 1
  | [] => rfl
  | [_] => rfl
  | p0 :: p1 :: rest => by
      simp only [simpleReturns, List.length_cons]
      rw [simpleReturns_length (p1 :: rest)]
      simp only [List.length_cons]
      omega

/-- Under nonzero leading prices the JS variance is the rational population
variance of the simple returns. -/
theorem varianceOf_eq (ps : List ℚ) (h2 : 2 ≤ ps.length)
    (h0 : ∀ p ∈ ps.dropLast, p ≠ 0) :
    varianceOf ps = .num (popVariance (simpleReturns ps)) := by
  have hret := dailyReturns_map ps h0
  have hlen : (simpleReturns ps).length = ps.length - 1 := simpleReturns_length ps
  have hpos : (simpleReturns ps).length ≠ 0 := by omega
  have hcast : ((simpleReturns ps).length : ℚ) ≠ 0 := Nat.cast_ne_zero.mpr hpos
  have hmean : meanOf (dailyReturns ps) = .num (popMean (simpleReturns ps)) := by
    rw [meanOf, sumJS, hret, List.length_map, foldl_jsAdd_map, zero_add]
    simp [jsDiv, hcast, popMean]
  have hvs : varSum (dailyReturns ps) (meanOf (dailyReturns ps)) =
      .num (((simpleReturns ps).map
        (fun r => (r - popMean (simpleReturns ps)) ^ 2)).sum) := by
    rw [hmean, hret, varSum, foldl_varSum_map, zero_add]
  simp only [varianceOf]
  rw [hvs, hret, List.length_map]
  simp [jsDiv, hcast, popVariance]

/-- A list of nonnegative rationals has a nonnegative sum. -/
theorem sum_nonneg_of_nonneg (l : List ℚ) (h : ∀ x ∈ l, 0 ≤ x) : 0 ≤ l.sum := by
  induction l with
  | nil => simp
  | cons x xs ih =>
    simp only [List.sum_cons]
    exact add_nonneg (h x (List.mem_cons_self x xs))
      (ih fun y hy => h y (List.mem_cons_of_mem x hy))

/-- The population variance is nonnegative. -/
theorem popVariance_nonneg (l : List ℚ) : 0 ≤ popVariance l := by
  rw [popVariance]
  apply div_nonneg
  · apply sum_nonneg_of_nonneg
    intro x hx
    obtain ⟨r, _, rfl⟩ := List.mem_map.mp hx
    exact sq_nonneg _
  · exact Nat.cast_nonneg _

/-- On fewer than two prices the source returns 0 early. -/
theorem calculateVolatility_of_short (ps : List ℚ) (h : ps.length < 2) :
    calculateVolatility ps = .num 0 := by
  rw [calculateVolatility, if_pos h]

/-- On at least two prices, none of the leading ones zero, the source returns
the real square root of the population variance of the simple returns. -/
theorem calculateVolatility_formula (ps : List ℚ) (h2 : 2 ≤ ps.length)
    (h0 : ∀ p ∈ ps.dropLast, p ≠ 0) :
    calculateVolatility ps =
      .num (Real.sqrt ((popVariance (simpleReturns ps) : ℚ) : ℝ)) := by
  rw [calculateVolatility, if_neg (by omega)]
  rw [varianceOf_eq ps h2 h0]
  simp only [jsSqrtR]
  rw [if_neg (not_lt.mpr (popVariance_nonneg _))]

/-- The simple returns of a constant price list are all zero. -/
theorem simpleReturns_all_zero (c : ℚ) : ∀ ps : List ℚ, (∀ p ∈ ps, p = c) →
    ∀ r ∈ simpleReturns ps, r = 0
  | [] => by intro _ r hr; exact absurd hr (List.not_mem_nil r)
  | [_] => by intro _ r hr; exact absurd hr (List.not_mem_nil r)
  | p0 :: p1 :: rest => by
      intro h r hr
      simp only [simpleReturns, List.mem_cons] at hr
      rcases hr with hr | hr
      · have e0 : p0 = c := h p0 (by simp)
        have e1 : p1 = c := h p1 (by simp)
        rw [hr, e0, e1]
        simp
      · exact simpleReturns_all_zero c (p1 :: rest)
          (fun p hp => h p (List.mem_cons_of_mem _ hp)) r hr

/-- The population variance of an all-zero list is zero. -/
theorem popVariance_of_zeros (l : List ℚ) (h : ∀ r ∈ l, r = 0) :
    popVariance l = 0 := by
  have hm : popMean l = 0 := by rw [popMean, List.sum_eq_zero h, zero_div]
  rw [popVariance]
  have hz : (l.map (fun r => (r - popMean l) ^ 2)).sum = 0 := by
    apply List.sum_eq_zero
    intro x hx
    obtain ⟨r, hr, rfl⟩ := List.mem_map.mp hx
    rw [h r hr, hm]
    norm_num
  rw [hz, zero_div]

/-- C4 (as amended): `calculateVolatility` returns exactly 0 on fewer than
two prices; on two or more prices, none of which but possibly the last is
zero, it returns the population standard deviation (dividing by the count) of
the simple returns `(p[i] - p[i-1]) / p[i-1]`; in particular every constant
NONZERO price sequence of length at least 2 yields 0.  The nonzero condition
is forced: a zero price makes a daily return `0 / 0 = NaN` (see the
counterexample), contaminating the result. -/
theorem calculateVolatility_spec (ps : List ℚ) :
    (ps.length < 2 → calculateVolatility ps = JSR.num 0) ∧
    (2 ≤ ps.length → (∀ p ∈ ps.dropLast, p ≠ 0) →
      calculateVolatility ps =
        JSR.num (Real.sqrt ((popVariance (simpleReturns ps) : ℚ) : ℝ))) ∧
    (∀ c : ℚ, c ≠ 0 → (∀ p ∈ ps, p = c) → 2 ≤ ps.length →
      calculateVolatility ps = JSR.num 0) := by
  refine ⟨calculateVolatility_of_short ps, calculateVolatility_formula ps, ?_⟩
  intro c hc hconst h2
  have h0 : ∀ p ∈ ps.dropLast, p ≠ 0 := fun p hp => by
    rw [hconst p (List.dropLast_subset ps hp)]; exact hc
  rw [calculateVolatility_formula ps h2 h0]
  rw [popVariance_of_zeros _ (simpleReturns_all_zero c ps hconst)]
  simp

/-- Witness for the amended C4 at the specification's sample prices 100, 110,
99, whose simple returns are 1/10 and -1/10 with population variance 1/100. -/
theorem calculateVolatility_spec_witness :
    calculateVolatility [(100 : ℚ), 110, 99] =
      JSR.num (Real.sqrt ((popVariance (simpleReturns [(100 : ℚ), 110, 99]) : ℚ) : ℝ)) ∧
    popVariance (simpleReturns [(100 : ℚ), 110, 99]) = 1 / 100 :=
  ⟨(calculateVolatility_spec [100, 110, 99]).2.1 (by decide) (by decide),
   by norm_num [popVariance, popMean, simpleReturns]⟩

/-- C4 (counterexample): on the constant price sequence `[0, 0]` — length 2,
all elements equal — the source returns NaN, not 0: the single daily return
is `(0 - 0) / 0 = NaN`, so mean, variance and `Math.sqrt(variance)` are NaN. -/
theorem calculateVolatility_zero_prices_nan :
    calculateVolatility [(0 : ℚ), 0] = JSR.nan ∧ JSR.nan ≠ JSR.num 0 := by
  constructor
  · have hv : varianceOf [(0 : ℚ), 0] = JSNum.nan := by
      norm_num [varianceOf, dailyReturns, meanOf, sumJS, varSum, jsDiv, jsAdd,
        jsSub, jsPow2]
    rw [calculateVolatility, if_neg (by simp), hv]
    rfl
  · exact fun h => JSR.noConfusion h

end Fwog
